import Mathlib

/-!
Verification of the hyde-lyve-middleware core components against their design
spec: the HikCentral request signer (canonical string, HMAC-SHA256 signature,
Content-MD5) and the Redis-backed circuit breaker state machine.

The Python source is embedded shallowly: hash primitives (MD5, SHA-256, HMAC,
base64, UTF-8) are implemented over `Nat` byte lists; the stateful circuit
breaker becomes explicit state passing over an optional key-value store
snapshot, with the clock an explicit parameter.
-/

/-! ## 32-bit word arithmetic over Nat -/

def w32 : Nat := 4294967296

def add32 (a b : Nat) : Nat := (a + b) % w32

def not32 (x : Nat) : Nat := x ^^^ 4294967295

def rotl32 (x n : Nat) : Nat := ((x <<< n) ||| (x >>> (32 - n))) % w32

def rotr32 (x n : Nat) : Nat := ((x >>> n) ||| (x <<< (32 - n))) % w32

/-- Split a byte list into chunks of `n` bytes (input length assumed a
multiple of `n`, as produced by hash padding). Fold-based to stay
structurally reducible. -/
def chunksOf (n : Nat) (l : List Nat) : List (List Nat) :=
  let p := l.foldl
    (fun (acc : List (List Nat) × List Nat) b =>
      if acc.2.length = n - 1 then (acc.1 ++ [acc.2 ++ [b]], [])
      else (acc.1, acc.2 ++ [b]))
    ([], [])
  if p.2 = [] then p.1 else p.1 ++ [p.2]

/-- Little-endian bytes of `x`, `n` bytes wide. -/
def leBytes (n x : Nat) : List Nat :=
  (List.range n).map (fun i => (x >>> (8 * i)) % 256)

/-- Big-endian bytes of `x`, `n` bytes wide. -/
def beBytes (n x : Nat) : List Nat :=
  (List.range n).map (fun i => (x >>> (8 * (n - 1 - i))) % 256)

/-- Little-endian 32-bit words from a byte list. -/
def leWords (l : List Nat) : List Nat :=
  (chunksOf 4 l).map (fun c =>
    c.getD 0 0 + 256 * c.getD 1 0 + 65536 * c.getD 2 0 + 16777216 * c.getD 3 0)

/-- Big-endian 32-bit words from a byte list. -/
def beWords (l : List Nat) : List Nat :=
  (chunksOf 4 l).map (fun c =>
    16777216 * c.getD 0 0 + 65536 * c.getD 1 0 + 256 * c.getD 2 0 + c.getD 3 0)

/-- Merkle–Damgård padding: append 0x80, zero bytes to 56 mod 64, then the
8-byte bit length (little-endian for MD5, big-endian for SHA-256). -/
def mdPad (le : Bool) (msg : List Nat) : List Nat :=
  let L := msg.length
  let z := (119 - L % 64) % 64
  let lenBytes := if le then leBytes 8 (8 * L) else beBytes 8 (8 * L)
  msg ++ [128] ++ List.replicate z 0 ++ lenBytes

/-! ## MD5 -/

def md5K : List Nat :=
  [3614090360, 3905402710, 606105819, 3250441966,
   4118548399, 1200080426, 2821735955, 4249261313,
   1770035416, 2336552879, 4294925233, 2304563134,
   1804603682, 4254626195, 2792965006, 1236535329,
   4129170786, 3225465664, 643717713, 3921069994,
   3593408605, 38016083, 3634488961, 3889429448,
   568446438, 3275163606, 4107603335, 1163531501,
   2850285829, 4243563512, 1735328473, 2368359562,
   4294588738, 2272392833, 1839030562, 4259657740,
   2763975236, 1272893353, 4139469664, 3200236656,
   681279174, 3936430074, 3572445317, 76029189,
   3654602809, 3873151461, 530742520, 3299628645,
   4096336452, 1126891415, 2878612391, 4237533241,
   1700485571, 2399980690, 4293915773, 2240044497,
   1873313359, 4264355552, 2734768916, 1309151649,
   4149444226, 3174756917, 718787259, 3951481745]

def md5S : List Nat :=
  [7, 12, 17, 22, 7, 12, 17, 22, 7, 12, 17, 22, 7, 12, 17, 22,
   5, 9, 14, 20, 5, 9, 14, 20, 5, 9, 14, 20, 5, 9, 14, 20,
   4, 11, 16, 23, 4, 11, 16, 23, 4, 11, 16, 23, 4, 11, 16, 23,
   6, 10, 15, 21, 6, 10, 15, 21, 6, 10, 15, 21, 6, 10, 15, 21]

/-- One MD5 round: mixing function value and message word index for round i. -/
def md5FG (b c d i : Nat) : Nat × Nat :=
  if i < 16 then ((b &&& c) ||| (not32 b &&& d), i)
  else if i < 32 then ((d &&& b) ||| (not32 d &&& c), (5 * i + 1) % 16)
  else if i < 48 then (b ^^^ c ^^^ d, (3 * i + 5) % 16)
  else (c ^^^ (b ||| not32 d), (7 * i) % 16)

/-- MD5 compression of one 64-byte block into the running 4-word state. -/
def md5Block (st : Nat × Nat × Nat × Nat) (block : List Nat) :
    Nat × Nat × Nat × Nat :=
  let m := leWords block
  let r := (List.range 64).foldl
    (fun (s : Nat × Nat × Nat × Nat) i =>
      let (a, b, c, d) := s
      let (f, g) := md5FG b c d i
      let rot := rotl32 (add32 (add32 a f) (add32 (md5K.getD i 0) (m.getD g 0)))
        (md5S.getD i 0)
      (d, add32 b rot, b, c))
    st
  let (a0, b0, c0, d0) := st
  let (a, b, c, d) := r
  (add32 a0 a, add32 b0 b, add32 c0 c, add32 d0 d)

/-- MD5 digest (16 bytes) of a byte list. -/
def md5Bytes (msg : List Nat) : List Nat :=
  let st := (chunksOf 64 (mdPad true msg)).foldl md5Block
    (1732584193, 4023233417, 2562383102, 271733878)
  let (a, b, c, d) := st
  leBytes 4 a ++ leBytes 4 b ++ leBytes 4 c ++ leBytes 4 d

/-! ## SHA-256 -/

def sha256K : List Nat :=
  [1116352408, 1899447441, 3049323471, 3921009573,
   961987163, 1508970993, 2453635748, 2870763221,
   3624381080, 310598401, 607225278, 1426881987,
   1925078388, 2162078206, 2614888103, 3248222580,
   3835390401, 4022224774, 264347078, 604807628,
   770255983, 1249150122, 1555081692, 1996064986,
   2554220882, 2821834349, 2952996808, 3210313671,
   3336571891, 3584528711, 113926993, 338241895,
   666307205, 773529912, 1294757372, 1396182291,
   1695183700, 1986661051, 2177026350, 2456956037,
   2730485921, 2820302411, 3259730800, 3345764771,
   3516065817, 3600352804, 4094571909, 275423344,
   430227734, 506948616, 659060556, 883997877,
   958139571, 1322822218, 1537002063, 1747873779,
   1955562222, 2024104815, 2227730452, 2361852424,
   2428436474, 2756734187, 3204031479, 3329325298]

/-- SHA-256 message schedule: 16 block words extended to 64. -/
def sha256Schedule (block : List Nat) : List Nat :=
  (List.range 48).foldl
    (fun w _ =>
      let i := w.length
      let s0 := rotr32 (w.getD (i - 15) 0) 7 ^^^ rotr32 (w.getD (i - 15) 0) 18 ^^^
        (w.getD (i - 15) 0 >>> 3)
      let s1 := rotr32 (w.getD (i - 2) 0) 17 ^^^ rotr32 (w.getD (i - 2) 0) 19 ^^^
        (w.getD (i - 2) 0 >>> 10)
      w ++ [add32 (add32 (w.getD (i - 16) 0) s0) (add32 (w.getD (i - 7) 0) s1)])
    (beWords block)

/-- SHA-256 compression of one 64-byte block into the running 8-word state. -/
def sha256Block (st : List Nat) (block : List Nat) : List Nat :=
  let w := sha256Schedule block
  let r := (List.range 64).foldl
    (fun (s : List Nat) i =>
      let a := s.getD 0 0
      let b := s.getD 1 0
      let c := s.getD 2 0
      let d := s.getD 3 0
      let e := s.getD 4 0
      let f := s.getD 5 0
      let g := s.getD 6 0
      let h := s.getD 7 0
      let s1 := rotr32 e 6 ^^^ rotr32 e 11 ^^^ rotr32 e 25
      let ch := (e &&& f) ^^^ (not32 e &&& g)
      let t1 := add32 (add32 h s1) (add32 ch (add32 (sha256K.getD i 0) (w.getD i 0)))
      let s0 := rotr32 a 2 ^^^ rotr32 a 13 ^^^ rotr32 a 22
      let maj := (a &&& b) ^^^ (a &&& c) ^^^ (b &&& c)
      let t2 := add32 s0 maj
      [add32 t1 t2, a, b, c, add32 d t1, e, f, g])
    st
  (List.range 8).map (fun i => add32 (st.getD i 0) (r.getD i 0))

/-- SHA-256 digest (32 bytes) of a byte list. -/
def sha256Bytes (msg : List Nat) : List Nat :=
  let st := (chunksOf 64 (mdPad false msg)).foldl sha256Block
    [1779033703, 3144134277, 1013904242, 2773480762,
     1359893119, 2600822924, 528734635, 1541459225]
  st.foldr (fun x acc => beBytes 4 x ++ acc) []

/-- HMAC-SHA256 (RFC 2104) of `msg` under `key`, as 32 digest bytes. -/
def hmacSha256 (key msg : List Nat) : List Nat :=
  let k0 := if 64 < key.length then sha256Bytes key else key
  let kp := k0 ++ List.replicate (64 - k0.length) 0
  let ipad := kp.map (fun b => b ^^^ 54)
  let opad := kp.map (fun b => b ^^^ 92)
  sha256Bytes (opad ++ sha256Bytes (ipad ++ msg))

/-! ## Base64 and UTF-8 -/

def b64Alphabet : List Char :=
  "ABCDEFGHIJKLMNOPQRSTUVWXYZabcdefghijklmnopqrstuvwxyz0123456789+/".data

def b64Char (n : Nat) : Char := b64Alphabet.getD n 'A'

/-- Standard base64 encoding of a byte list, with `=` padding. -/
def b64encode : List Nat → String
  | [] => ""
  | [a] =>
    String.mk [b64Char (a >>> 2), b64Char ((a % 4) <<< 4), '=', '=']
  | [a, b] =>
    String.mk [b64Char (a >>> 2), b64Char (((a % 4) <<< 4) ||| (b >>> 4)),
      b64Char ((b % 16) <<< 2), '=']
  | a :: b :: c :: rest =>
    String.mk [b64Char (a >>> 2), b64Char (((a % 4) <<< 4) ||| (b >>> 4)),
      b64Char (((b % 16) <<< 2) ||| (c >>> 6)), b64Char (c % 64)] ++ b64encode rest

/-- UTF-8 encoding of one code point. -/
def utf8Char (c : Nat) : List Nat :=
  if c < 128 then [c]
  else if c < 2048 then [192 + c / 64, 128 + c % 64]
  else if c < 65536 then [224 + c / 4096, 128 + (c / 64) % 64, 128 + c % 64]
  else [240 + c / 262144, 128 + (c / 4096) % 64, 128 + (c / 64) % 64, 128 + c % 64]

/-- UTF-8 bytes of a string (`str.encode('utf-8')` in the source). -/
def utf8 (s : String) : List Nat :=
  s.data.foldr (fun c acc => utf8Char c.toNat ++ acc) []

/-! ## Request signer (`HikCentralClient` in `src/app/hikcentral_client.py`;
the signing core is identical in `src/services/hikcentral_client.py`).
Headers are an insertion-ordered association list, as a Python dict.
Configuration fields (`app_key`, `app_secret`, `user_id`) and the clock
reads (timestamp, nonce) are explicit parameters. -/

namespace HikCentralClient

/-- Dict access `headers.get(k, d)` on the header map. -/
def hdrGetD (hs : List (String × String)) (k d : String) : String :=
  (List.lookup k hs).getD d

/-- Interpolation of `headers.get(k)` into an f-string: a missing key renders
as the string `"None"`. -/
def hdrGetNone (hs : List (String × String)) (k : String) : String :=
  (List.lookup k hs).getD "None"

/-- Python `_get_content_md5`: base64 of the raw MD5 digest of the UTF-8 body bytes. -/
def getContentMd5 (body : String) : String :=
  b64encode (md5Bytes (utf8 body))

/-- The canonical string-to-sign of `_generate_signature`: the newline join of
method, Accept, Content-MD5, Content-Type, Date, the three `x-ca-*` lines,
and the URI path, in that order. -/
def stringToSign (method uri : String) (hs : List (String × String)) : String :=
  String.intercalate "\n"
    [method,
     hdrGetD hs "Accept" "*/*",
     hdrGetD hs "Content-MD5" "",
     hdrGetD hs "Content-Type" "",
     hdrGetD hs "Date" "",
     "x-ca-key:" ++ hdrGetNone hs "X-Ca-Key",
     "x-ca-nonce:" ++ hdrGetNone hs "X-Ca-Nonce",
     "x-ca-timestamp:" ++ hdrGetNone hs "X-Ca-Timestamp",
     uri]

/-- Python `_generate_signature`: base64(HMAC-SHA256(app_secret, string_to_sign)),
both UTF-8 encoded. -/
def generateSignature (appSecret method uri : String)
    (hs : List (String × String)) : String :=
  b64encode (hmacSha256 (utf8 appSecret) (utf8 (stringToSign method uri hs)))

/-- Python `_build_headers`: the fixed headers plus identity headers; `Content-MD5`
only when the body string is non-empty (Python truthiness); finally the
computed `X-Ca-Signature`. `timestamp` and `nonce` are the two clock reads
made explicit. -/
def buildHeaders (appKey appSecret userId : String)
    (method uri bodyStr timestamp nonce : String) : List (String × String) :=
  let hs :=
    [("Accept", "application/json"),
     ("Content-Type", "application/json;charset=UTF-8"),
     ("X-Ca-Key", appKey),
     ("X-Ca-Nonce", nonce),
     ("X-Ca-Timestamp", timestamp),
     ("X-Ca-Signature-Headers", "x-ca-key,x-ca-nonce,x-ca-timestamp"),
     ("userId", userId)]
  let hs := if bodyStr = "" then hs else hs ++ [("Content-MD5", getContentMd5 bodyStr)]
  hs ++ [("X-Ca-Signature", generateSignature appSecret method uri hs)]

end HikCentralClient

/-! ## Circuit breaker (`CircuitBreaker` in `src/app/circuit_breaker.py`).
The Redis store becomes an optional record of the three keys' values
(`none` when `redis_client` is `None`); absent keys are `none` fields.
The clock read `time.time()` is the explicit `now : Int` parameter. -/

namespace CircuitBreaker

structure Config where
  failureThreshold : Nat
  recoveryTimeout : Int
  deriving Repr, DecidableEq

/-- Snapshot of the three Redis keys (`state`, `failure_count`,
`last_failure_time`); a `none` field is an absent key. -/
structure Store where
  state : Option String
  failureCount : Option Nat
  lastFailureTime : Option Int
  deriving Repr, DecidableEq

/-- The store as first seen when nothing was ever written. -/
def emptyStore : Store := ⟨none, none, none⟩

/-- Python `get_state`: the stored state string, `"CLOSED"` when the key is absent
or Redis is unavailable. -/
def getState : Option Store → String
  | none => "CLOSED"
  | some st => st.state.getD "CLOSED"

/-- Python `set_state`: a no-op without Redis. -/
def setState (v : String) : Option Store → Option Store
  | none => none
  | some st => some { st with state := some v }

/-- Python `get_failure_count`: 0 when the key is absent or Redis is unavailable. -/
def getFailureCount : Option Store → Nat
  | none => 0
  | some st => st.failureCount.getD 0

/-- Python `increment_failure_count`: `INCR` the counter, stamp
`last_failure_time := now`, and return the new count (0 without Redis). -/
def incrementFailureCount (now : Int) : Option Store → Nat × Option Store
  | none => (0, none)
  | some st =>
    let c := st.failureCount.getD 0 + 1
    (c, some { st with failureCount := some c, lastFailureTime := some now })

/-- Python `reset_failure_count`: delete the counter and last-failure keys. -/
def resetFailureCount : Option Store → Option Store
  | none => none
  | some st => some { st with failureCount := none, lastFailureTime := none }

/-- Python `should_allow_request`: returns the decision together with the possibly
updated store (the OPEN→HALF_OPEN transition happens here). -/
def shouldAllowRequest (cfg : Config) (now : Int) (s : Option Store) :
    Bool × Option Store :=
  let st := getState s
  if st = "CLOSED" then (true, s)
  else if st = "OPEN" then
    match s with
    | none => (false, none)
    | some store =>
      match store.lastFailureTime with
      | some lastTime =>
        if cfg.recoveryTimeout ≤ now - lastTime then
          (true, setState "HALF_OPEN" s)
        else (false, s)
      | none => (false, s)
  else if st = "HALF_OPEN" then (true, s)
  else (true, s)

/-- Python `record_success`. -/
def recordSuccess : Option Store → Option Store
  | s =>
    let st := getState s
    if st = "HALF_OPEN" then setState "CLOSED" (resetFailureCount s)
    else if st = "CLOSED" then resetFailureCount s
    else s

/-- Python `record_failure`. -/
def recordFailure (cfg : Config) (now : Int) (s : Option Store) : Option Store :=
  let st := getState s
  if st = "HALF_OPEN" then setState "OPEN" s
  else if st = "CLOSED" then
    let (c, s1) := incrementFailureCount now s
    if cfg.failureThreshold ≤ c then setState "OPEN" s1 else s1
  else s

/-- Outcome of `call`: the circuit-open rejection raised by the breaker
itself, kept distinct from a propagated downstream error. -/
inductive CBError (ε : Type) where
  | circuitOpen : CBError ε
  | downstream : ε → CBError ε
  deriving Repr, DecidableEq

/-- How an attempted operation outcome surfaces through `call`: a success
value unchanged, a failure re-raised as the original error. -/
def opOutcome {ε α : Type} : Except ε α → Except (CBError ε) α
  | .ok a => .ok a
  | .error e => .error (.downstream e)

/-- Python `call`: rejects with the breaker's own error when the request is not
allowed (the operation is never consulted); otherwise runs the operation,
records the outcome, and passes the result or original error through.
`op` is the wrapped operation's outcome at this instant. -/
def call (cfg : Config) (now : Int) (s : Option Store) {ε α : Type}
    (op : Except ε α) : Except (CBError ε) α × Option Store :=
  match shouldAllowRequest cfg now s with
  | (false, s1) => (.error .circuitOpen, s1)
  | (true, s1) =>
    match op with
    | .ok a => (.ok a, recordSuccess s1)
    | .error e => (.error (.downstream e), recordFailure cfg now s1)

/-- One interaction with the breaker, for reasoning about whole traces:
a recorded success, a recorded failure at time `t`, an allow-check at time
`t`, or a full `call` at time `t` with the given operation outcome. -/
inductive Event where
  | success : Event
  | failure : Int → Event
  | probe : Int → Event
  | callOp : Int → Except Unit Unit → Event

/-- Effect of one event on the store. -/
def applyEvent (cfg : Config) (s : Option Store) : Event → Option Store
  | .success => recordSuccess s
  | .failure t => recordFailure cfg t s
  | .probe t => (shouldAllowRequest cfg t s).2
  | .callOp t op => (call cfg t s op).2

/-- Fold a trace of events over the store. -/
def runEvents (cfg : Config) (evs : List Event) (s : Option Store) : Option Store :=
  evs.foldl (applyEvent cfg) s

/-- Iterate `record_failure` over a list of failure times, oldest first. -/
def runFailures (cfg : Config) (ts : List Int) (s : Option Store) : Option Store :=
  ts.foldl (fun s t => recordFailure cfg t s) s

end CircuitBreaker

/-! ## Helper lemmas -/

namespace CircuitBreaker

/-- One `record_failure` step on a store whose state key is absent (so the
circuit reads CLOSED): the counter increments, the failure time is stamped,
and the circuit opens exactly when the new count reaches the threshold. -/
theorem recordFailure_closed (cfg : Config) (t : Int) (fc : Option Nat)
    (lt : Option Int) :
    recordFailure cfg t (some ⟨none, fc, lt⟩) =
      if cfg.failureThreshold ≤ fc.getD 0 + 1
      then some ⟨some "OPEN", some (fc.getD 0 + 1), some t⟩
      else some ⟨none, some (fc.getD 0 + 1), some t⟩ := rfl

/-- Below the threshold, consecutive failures from the empty store only
accumulate the counter and stamp the failure time; the state key stays
absent (CLOSED). -/
theorem runFailures_replicate_lt (cfg : Config) (t : Int) :
    ∀ n : Nat, 0 < n → n < cfg.failureThreshold →
    runFailures cfg (List.replicate n t) (some emptyStore) =
      some ⟨none, some n, some t⟩ := by
  intro n
  induction n with
  | zero => omega
  | succ m ih =>
    intro _ hlt
    cases m with
    | zero =>
      show recordFailure cfg t (some ⟨none, none, none⟩) = some ⟨none, some 1, some t⟩
      rw [recordFailure_closed, if_neg (by simp only [Option.getD]; omega)]
      rfl
    | succ k =>
      rw [List.replicate_succ']
      unfold runFailures
      rw [List.foldl_append]
      have hprev : runFailures cfg (List.replicate (k + 1) t) (some emptyStore) =
          some ⟨none, some (k + 1), some t⟩ := ih (by omega) (by omega)
      unfold runFailures at hprev
      rw [hprev]
      simp only [List.foldl_cons, List.foldl_nil]
      rw [recordFailure_closed, if_neg (by simp only [Option.getD]; omega)]
      rfl

/-- Without Redis every breaker operation leaves the (absent) store absent. -/
theorem applyEvent_none (cfg : Config) (e : Event) :
    applyEvent cfg none e = none := by
  cases e with
  | success => rfl
  | failure t =>
    simp [applyEvent, recordFailure, getState, incrementFailureCount, setState]
  | probe t => rfl
  | callOp t op =>
    cases op with
    | ok a => rfl
    | error e =>
      simp [applyEvent, call, shouldAllowRequest, getState, recordFailure,
        incrementFailureCount, setState]

/-- Reduction of `should_allow_request` on an OPEN store with a recorded
last-failure time: the decision is exactly the recovery-timeout comparison,
and allowing flips the state to HALF_OPEN. -/
theorem shouldAllowRequest_open (cfg : Config) (now lt : Int) (fc : Option Nat) :
    shouldAllowRequest cfg now (some ⟨some "OPEN", fc, some lt⟩) =
      if cfg.recoveryTimeout ≤ now - lt
      then (true, some ⟨some "HALF_OPEN", fc, some lt⟩)
      else (false, some ⟨some "OPEN", fc, some lt⟩) := rfl

end CircuitBreaker

/-! ## Claim theorems -/

/-- C1: for method POST, URI /api/resource/v1/person/single/add, empty body
(hence empty Content-MD5), pinned nonce "42" and pinned timestamp
"1700000000000", the produced X-Ca-Signature equals
base64(HMAC-SHA256(secretKey, canonicalString)) where the canonical string is
the newline join, in exact order, of method, "application/json", "",
"application/json;charset=UTF-8", "", "x-ca-key:appKey", "x-ca-nonce:42",
"x-ca-timestamp:1700000000000", and the URI path, with key and string UTF-8
encoded before signing. -/
theorem signature_golden_vector (appKey appSecret userId : String) :
    List.lookup "X-Ca-Signature"
      (HikCentralClient.buildHeaders appKey appSecret userId "POST"
        "/api/resource/v1/person/single/add" "" "1700000000000" "42")
    = some (b64encode (hmacSha256 (utf8 appSecret)
        (utf8 (String.intercalate "\n"
          ["POST", "application/json", "", "application/json;charset=UTF-8", "",
           "x-ca-key:" ++ appKey, "x-ca-nonce:42", "x-ca-timestamp:1700000000000",
           "/api/resource/v1/person/single/add"])))) := rfl

/-- C2: from the initial CLOSED state with counter 0, exactly
failureThreshold consecutive recorded failures leave the circuit OPEN with
the failure time stamped, and the very next call within the recovery window
fails with the breaker's own circuit-open error — an error distinct from any
downstream failure — without consulting the wrapped operation (the result and
store are the same for every operation). -/
theorem circuit_opens_at_threshold_and_rejects (cfg : CircuitBreaker.Config)
    (t now : Int) (hth : 0 < cfg.failureThreshold)
    (hfresh : now - t < cfg.recoveryTimeout) :
    CircuitBreaker.runFailures cfg (List.replicate cfg.failureThreshold t)
        (some CircuitBreaker.emptyStore) =
      some ⟨some "OPEN", some cfg.failureThreshold, some t⟩
    ∧ CircuitBreaker.getState
        (CircuitBreaker.runFailures cfg (List.replicate cfg.failureThreshold t)
          (some CircuitBreaker.emptyStore)) = "OPEN"
    ∧ (∀ (ε α : Type) (op : Except ε α),
        CircuitBreaker.call cfg now
            (some ⟨some "OPEN", some cfg.failureThreshold, some t⟩) op =
          (.error .circuitOpen,
           some ⟨some "OPEN", some cfg.failureThreshold, some t⟩))
    ∧ (∀ (ε : Type) (e : ε),
        (CircuitBreaker.CBError.circuitOpen : CircuitBreaker.CBError ε) ≠
          .downstream e) := by
  have hopen : CircuitBreaker.runFailures cfg
      (List.replicate cfg.failureThreshold t) (some CircuitBreaker.emptyStore) =
      some ⟨some "OPEN", some cfg.failureThreshold, some t⟩ := by
    rcases hn : cfg.failureThreshold with _ | m
    · omega
    · cases m with
      | zero =>
        show CircuitBreaker.recordFailure cfg t (some ⟨none, none, none⟩) =
          some ⟨some "OPEN", some 1, some t⟩
        rw [CircuitBreaker.recordFailure_closed,
          if_pos (by simp only [Option.getD]; omega)]
        rfl
      | succ k =>
        rw [List.replicate_succ']
        unfold CircuitBreaker.runFailures
        rw [List.foldl_append]
        have hprev := CircuitBreaker.runFailures_replicate_lt cfg t (k + 1)
          (by omega) (by omega)
        unfold CircuitBreaker.runFailures at hprev
        rw [hprev]
        simp only [List.foldl_cons, List.foldl_nil]
        rw [CircuitBreaker.recordFailure_closed,
          if_pos (by simp only [Option.getD]; omega)]
        rfl
  have hsar : CircuitBreaker.shouldAllowRequest cfg now
      (some ⟨some "OPEN", some cfg.failureThreshold, some t⟩) =
      (false, some ⟨some "OPEN", some cfg.failureThreshold, some t⟩) := by
    rw [CircuitBreaker.shouldAllowRequest_open, if_neg (by omega)]
  refine ⟨hopen, by rw [hopen]; rfl, fun ε α op => ?_, fun ε e h => nomatch h⟩
  unfold CircuitBreaker.call
  rw [hsar]

/-- C3: on an OPEN store with a recorded last-failure time, a call strictly
inside the recovery window is rejected with the circuit-open error, leaving
the store untouched and never consulting the operation; once the window has
elapsed the breaker flips the state to HALF_OPEN and the call runs the
operation (its outcome is the operation's own, value or original error). -/
theorem open_state_recovery_gate (cfg : CircuitBreaker.Config) (now lt : Int)
    (st : CircuitBreaker.Store) (hst : st.state = some "OPEN")
    (hlt : st.lastFailureTime = some lt) :
    (now - lt < cfg.recoveryTimeout →
      CircuitBreaker.shouldAllowRequest cfg now (some st) = (false, some st)
      ∧ ∀ (ε α : Type) (op : Except ε α),
          CircuitBreaker.call cfg now (some st) op =
            (.error .circuitOpen, some st))
    ∧ (cfg.recoveryTimeout ≤ now - lt →
      CircuitBreaker.shouldAllowRequest cfg now (some st) =
        (true, some { st with state := some "HALF_OPEN" })
      ∧ ∀ (ε α : Type) (op : Except ε α),
          (CircuitBreaker.call cfg now (some st) op).1 =
            CircuitBreaker.opOutcome op) := by
  obtain ⟨s, fc, l⟩ := st
  simp only at hst hlt
  subst hst; subst hlt
  constructor
  · intro h
    have hs : CircuitBreaker.shouldAllowRequest cfg now
        (some ⟨some "OPEN", fc, some lt⟩) =
        (false, some ⟨some "OPEN", fc, some lt⟩) := by
      rw [CircuitBreaker.shouldAllowRequest_open, if_neg (by omega)]
    refine ⟨hs, fun ε α op => ?_⟩
    unfold CircuitBreaker.call
    rw [hs]
  · intro h
    have hs : CircuitBreaker.shouldAllowRequest cfg now
        (some ⟨some "OPEN", fc, some lt⟩) =
        (true, some ⟨some "HALF_OPEN", fc, some lt⟩) := by
      rw [CircuitBreaker.shouldAllowRequest_open, if_pos h]
    refine ⟨hs, fun ε α op => ?_⟩
    unfold CircuitBreaker.call
    rw [hs]
    cases op <;> rfl

/-- C4 counterexample: in HALF_OPEN with last-failure time 0, recording a
failure at current time 100 reopens the circuit but leaves the stored
last-failure timestamp at 0 — the current time is NOT recorded, refuting the
claim's final clause. -/
theorem half_open_failure_timestamp_counterexample :
    CircuitBreaker.recordFailure ⟨5, 60⟩ 100
        (some ⟨some "HALF_OPEN", some 2, some 0⟩) =
      some ⟨some "OPEN", some 2, some 0⟩
    ∧ some (0 : Int) ≠ some (100 : Int) := ⟨rfl, by decide⟩

/-- C4 amended: in HALF_OPEN, a recorded success deletes the counter and
failure-time keys (counter reads 0) and closes the circuit; a recorded
failure reopens the circuit immediately regardless of the counter, leaving
the counter and the last-failure timestamp unchanged (the current time is
not recorded). -/
theorem half_open_transitions (cfg : CircuitBreaker.Config) (now : Int)
    (st : CircuitBreaker.Store) (hst : st.state = some "HALF_OPEN") :
    CircuitBreaker.recordSuccess (some st) = some ⟨some "CLOSED", none, none⟩
    ∧ CircuitBreaker.getFailureCount (CircuitBreaker.recordSuccess (some st)) = 0
    ∧ CircuitBreaker.getState (CircuitBreaker.recordSuccess (some st)) = "CLOSED"
    ∧ CircuitBreaker.recordFailure cfg now (some st) =
        some ⟨some "OPEN", st.failureCount, st.lastFailureTime⟩ := by
  obtain ⟨s, fc, lt⟩ := st
  simp only at hst
  subst hst
  exact ⟨rfl, rfl, rfl, rfl⟩

/-- C5: when the breaker allows the request, `call` is transparent about the
operation's outcome — a success value is returned exactly as produced, and a
failing operation's original error is re-raised (wrapped only in the
downstream marker that distinguishes it from the breaker's own rejection). -/
theorem call_transparency (cfg : CircuitBreaker.Config) (now : Int)
    (s : Option CircuitBreaker.Store)
    (hallow : (CircuitBreaker.shouldAllowRequest cfg now s).1 = true)
    (ε α : Type) :
    (∀ a : α, (CircuitBreaker.call cfg now s (Except.ok a : Except ε α)).1 =
        .ok a)
    ∧ (∀ e : ε, (CircuitBreaker.call cfg now s (Except.error e : Except ε α)).1 =
        .error (.downstream e)) := by
  rcases h : CircuitBreaker.shouldAllowRequest cfg now s with ⟨b, s1⟩
  rw [h] at hallow
  simp only at hallow
  subst hallow
  exact ⟨fun a => by unfold CircuitBreaker.call; rw [h],
         fun e => by unfold CircuitBreaker.call; rw [h]⟩

/-- C6: the built header map contains a Content-MD5 key exactly when the body
string is non-empty, and then its value is base64 of the raw MD5 digest of
the UTF-8 bytes of the body. -/
theorem content_md5_presence (appKey appSecret userId method uri ts nonce
    body : String) :
    (body = "" →
      List.lookup "Content-MD5"
        (HikCentralClient.buildHeaders appKey appSecret userId method uri body
          ts nonce) = none)
    ∧ (body ≠ "" →
      List.lookup "Content-MD5"
        (HikCentralClient.buildHeaders appKey appSecret userId method uri body
          ts nonce) = some (b64encode (md5Bytes (utf8 body)))) := by
  constructor
  · intro h
    subst h
    rfl
  · intro h
    simp only [HikCentralClient.buildHeaders, if_neg h]
    rfl

/-- C7: with no state store configured, the breaker is an always-allow CLOSED
policy: any sequence of recorded successes, failures, allow-checks and calls
leaves the store absent, the reported state stays CLOSED, every allow-check
returns true, and every call runs the operation and surfaces its outcome. -/
theorem no_store_always_closed (cfg : CircuitBreaker.Config)
    (evs : List CircuitBreaker.Event) :
    CircuitBreaker.runEvents cfg evs none = none
    ∧ CircuitBreaker.getState (CircuitBreaker.runEvents cfg evs none) = "CLOSED"
    ∧ (∀ now : Int,
        CircuitBreaker.shouldAllowRequest cfg now none = (true, none))
    ∧ (∀ (now : Int) (ε α : Type) (op : Except ε α),
        (CircuitBreaker.call cfg now none op).1 = CircuitBreaker.opOutcome op
        ∧ (CircuitBreaker.call cfg now none op).2 = none) := by
  have hnone : CircuitBreaker.runEvents cfg evs none = none := by
    induction evs with
    | nil => rfl
    | cons e rest ih =>
      simp only [CircuitBreaker.runEvents, List.foldl_cons,
        CircuitBreaker.applyEvent_none]
      exact ih
  refine ⟨hnone, by rw [hnone]; rfl, fun now => rfl, fun now ε α op => ?_⟩
  cases op with
  | ok a => exact ⟨rfl, rfl⟩
  | error e =>
    refine ⟨rfl, ?_⟩
    simp [CircuitBreaker.call, CircuitBreaker.shouldAllowRequest,
      CircuitBreaker.getState, CircuitBreaker.recordFailure,
      CircuitBreaker.incrementFailureCount, CircuitBreaker.setState]

set_option maxRecDepth 100000 in
/-- C8: header construction is deterministic in its inputs once timestamp and
nonce are pinned — equal pinned clock reads give identical header maps and
hence identical signatures — while two runs of the golden request at
different instants (differing timestamp/nonce) produce different signatures. -/
theorem signature_determinism_and_instant_variation :
    (∀ appKey appSecret userId method uri body ts1 n1 ts2 n2 : String,
      ts1 = ts2 → n1 = n2 →
      HikCentralClient.buildHeaders appKey appSecret userId method uri body
          ts1 n1 =
        HikCentralClient.buildHeaders appKey appSecret userId method uri body
          ts2 n2)
    ∧ List.lookup "X-Ca-Signature"
        (HikCentralClient.buildHeaders "AK" "SK" "U" "POST"
          "/api/resource/v1/person/single/add" "" "1700000000000" "42")
      ≠ List.lookup "X-Ca-Signature"
        (HikCentralClient.buildHeaders "AK" "SK" "U" "POST"
          "/api/resource/v1/person/single/add" "" "1700000000001" "43") := by
  refine ⟨fun _ _ _ _ _ _ _ _ _ _ h1 h2 => by rw [h1, h2], ?_⟩
  decide

/-- C9: a store whose state is OPEN but whose last-failure key is absent can
never recover: every allow-check at every time returns false without mutating
the store, every call is rejected with the circuit-open error, and no
sequence of breaker operations changes the store. -/
theorem open_without_timestamp_rejects_forever (cfg : CircuitBreaker.Config)
    (st : CircuitBreaker.Store) (hst : st.state = some "OPEN")
    (hlt : st.lastFailureTime = none) :
    (∀ now : Int,
      CircuitBreaker.shouldAllowRequest cfg now (some st) = (false, some st))
    ∧ (∀ (now : Int) (ε α : Type) (op : Except ε α),
        CircuitBreaker.call cfg now (some st) op =
          (.error .circuitOpen, some st))
    ∧ (∀ evs : List CircuitBreaker.Event,
        CircuitBreaker.runEvents cfg evs (some st) = some st) := by
  obtain ⟨s, fc, lt⟩ := st
  simp only at hst hlt
  subst hst
  subst hlt
  refine ⟨fun now => rfl, fun now ε α op => rfl, fun evs => ?_⟩
  induction evs with
  | nil => rfl
  | cons e rest ih =>
    have h1 : CircuitBreaker.applyEvent cfg (some ⟨some "OPEN", fc, none⟩) e =
        some ⟨some "OPEN", fc, none⟩ := by
      cases e with
      | success => rfl
      | failure t => rfl
      | probe t => rfl
      | callOp t op => rfl
    simp only [CircuitBreaker.runEvents, List.foldl_cons, h1]
    exact ih

/-- C10: recording a failure while the stored circuit state is OPEN is a
no-op — the state, the failure counter and the last-failure timestamp are all
unchanged. -/
theorem record_failure_open_noop (cfg : CircuitBreaker.Config) (now : Int)
    (st : CircuitBreaker.Store) (hst : st.state = some "OPEN") :
    CircuitBreaker.recordFailure cfg now (some st) = some st := by
  obtain ⟨s, fc, lt⟩ := st
  simp only at hst
  subst hst
  rfl

/-! ## Witnesses: each hypothesis-bearing claim theorem applied at a
concrete input. -/

/-- C2 witness: threshold 2, failures at time 0, next call at time 10 with a
60-second recovery timeout. -/
theorem circuit_opens_at_threshold_and_rejects_witness :
    0 < (2 : Nat) ∧ (10 : Int) - 0 < 60
    ∧ CircuitBreaker.runFailures ⟨2, 60⟩ (List.replicate 2 0)
        (some CircuitBreaker.emptyStore) = some ⟨some "OPEN", some 2, some 0⟩
    ∧ CircuitBreaker.call ⟨2, 60⟩ 10 (some ⟨some "OPEN", some 2, some 0⟩)
        (Except.ok 7 : Except Unit Nat) =
      (.error .circuitOpen, some ⟨some "OPEN", some 2, some 0⟩) :=
  ⟨by decide, by decide,
   (circuit_opens_at_threshold_and_rejects ⟨2, 60⟩ 0 10 (by decide)
     (by decide)).1,
   (circuit_opens_at_threshold_and_rejects ⟨2, 60⟩ 0 10 (by decide)
     (by decide)).2.2.1 Unit Nat (Except.ok 7)⟩

/-- C3 witness: an OPEN store with last failure at time 0, probed inside
(time 10) and outside (time 100) a 60-second recovery window. -/
theorem open_state_recovery_gate_witness :
    ((10 : Int) - 0 < 60
      ∧ CircuitBreaker.shouldAllowRequest ⟨5, 60⟩ 10
          (some ⟨some "OPEN", some 3, some 0⟩) =
        (false, some ⟨some "OPEN", some 3, some 0⟩))
    ∧ ((60 : Int) ≤ 100 - 0
      ∧ CircuitBreaker.shouldAllowRequest ⟨5, 60⟩ 100
          (some ⟨some "OPEN", some 3, some 0⟩) =
        (true, some ⟨some "HALF_OPEN", some 3, some 0⟩)) :=
  ⟨⟨by decide,
    ((open_state_recovery_gate ⟨5, 60⟩ 10 0 ⟨some "OPEN", some 3, some 0⟩ rfl
      rfl).1 (by decide)).1⟩,
   ⟨by decide,
    ((open_state_recovery_gate ⟨5, 60⟩ 100 0 ⟨some "OPEN", some 3, some 0⟩ rfl
      rfl).2 (by decide)).1⟩⟩

/-- C4 witness: the amended HALF_OPEN transitions at a concrete store. -/
theorem half_open_transitions_witness :
    CircuitBreaker.recordSuccess (some ⟨some "HALF_OPEN", some 2, some 0⟩) =
      some ⟨some "CLOSED", none, none⟩
    ∧ CircuitBreaker.recordFailure ⟨5, 60⟩ 100
        (some ⟨some "HALF_OPEN", some 2, some 0⟩) =
      some ⟨some "OPEN", some 2, some 0⟩ :=
  ⟨(half_open_transitions ⟨5, 60⟩ 100 ⟨some "HALF_OPEN", some 2, some 0⟩ rfl).1,
   (half_open_transitions ⟨5, 60⟩ 100 ⟨some "HALF_OPEN", some 2, some 0⟩
     rfl).2.2.2⟩

/-- C5 witness: with no store the breaker allows, and `call` passes through
a concrete success value and a concrete error. -/
theorem call_transparency_witness :
    (CircuitBreaker.shouldAllowRequest ⟨5, 60⟩ 0 none).1 = true
    ∧ (CircuitBreaker.call ⟨5, 60⟩ 0 none (Except.ok 7 : Except Nat Nat)).1 =
        .ok 7
    ∧ (CircuitBreaker.call ⟨5, 60⟩ 0 none (Except.error 3 : Except Nat Nat)).1 =
        .error (.downstream 3) :=
  ⟨rfl, (call_transparency ⟨5, 60⟩ 0 none rfl Nat Nat).1 7,
   (call_transparency ⟨5, 60⟩ 0 none rfl Nat Nat).2 3⟩

/-- C6 witness: a concrete non-empty body yields the Content-MD5 header. -/
theorem content_md5_presence_witness :
    ("x" : String) ≠ ""
    ∧ List.lookup "Content-MD5"
        (HikCentralClient.buildHeaders "AK" "SK" "U" "POST" "/p" "x" "1" "2") =
      some (b64encode (md5Bytes (utf8 "x"))) :=
  ⟨by decide,
   (content_md5_presence "AK" "SK" "U" "POST" "/p" "1" "2" "x").2 (by decide)⟩

/-- C8 witness: the determinism conjunct applied at pinned equal timestamp
and nonce. -/
theorem signature_determinism_and_instant_variation_witness :
    HikCentralClient.buildHeaders "AK" "SK" "U" "POST" "/p" "" "9" "7" =
      HikCentralClient.buildHeaders "AK" "SK" "U" "POST" "/p" "" "9" "7" :=
  signature_determinism_and_instant_variation.1 "AK" "SK" "U" "POST" "/p" ""
    "9" "7" "9" "7" rfl rfl

/-- C9 witness: an OPEN store with no last-failure time rejects a probe far
in the future and is untouched by a sample trace. -/
theorem open_without_timestamp_rejects_forever_witness :
    CircuitBreaker.shouldAllowRequest ⟨5, 60⟩ 1000000
        (some ⟨some "OPEN", some 3, none⟩) =
      (false, some ⟨some "OPEN", some 3, none⟩)
    ∧ CircuitBreaker.runEvents ⟨5, 60⟩
        [.failure 5, .success, .probe 7, .callOp 9 (Except.ok ())]
        (some ⟨some "OPEN", some 3, none⟩) =
      some ⟨some "OPEN", some 3, none⟩ :=
  ⟨(open_without_timestamp_rejects_forever ⟨5, 60⟩ ⟨some "OPEN", some 3, none⟩
     rfl rfl).1 1000000,
   (open_without_timestamp_rejects_forever ⟨5, 60⟩ ⟨some "OPEN", some 3, none⟩
     rfl rfl).2.2 [.failure 5, .success, .probe 7, .callOp 9 (Except.ok ())]⟩

/-- C10 witness: a failure recorded against a concrete OPEN store changes
nothing. -/
theorem record_failure_open_noop_witness :
    CircuitBreaker.recordFailure ⟨5, 60⟩ 77 (some ⟨some "OPEN", some 1, some 3⟩) =
      some ⟨some "OPEN", some 1, some 3⟩ :=
  record_failure_open_noop ⟨5, 60⟩ 77 ⟨some "OPEN", some 1, some 3⟩ rfl
